import Mathlib

/-!
Shallow embedding of the AWS password-policy compliance checker
(`class_initialization_code_snippet.py`, `evaluate_compliance_code_snippet.py`,
`entry_point_code_snippet.py`) and proofs of the specification claims.

Python values appearing in the baseline or in a fetched policy are modelled by
`PValue` (booleans, integers, and strings for malformed values).  A policy is a
mapping from control names to optional values: `policy.get(control)` returns
`None` both when the key is absent and when the stored value is `None`, so both
are modelled by `Option.none`.  The helper method `_is_control_compliant` is not
among the provided source files, so the evaluator is parameterised by an
arbitrary total classifier of that signature.
-/

/-- A Python value stored in the baseline or in a policy mapping. -/
inductive PValue where
  | bool (b : Bool)
  | int (n : Int)
  | str (s : String)
deriving DecidableEq, Repr

/-- `policy.get control` — `none` covers both an absent key and a stored `None`. -/
abbrev Policy := String → Option PValue

/-- Signature of the (truncated) helper `_is_control_compliant(control, current_value,
required_value)`. -/
abbrev IsCompliant := String → PValue → PValue → Bool

/-- The evaluation report `dict` built by `evaluate_policy_compliance`. -/
structure Evaluation where
  compliant_controls : List String
  non_compliant_controls : List String
  missing_controls : List String
  compliance_score : ℚ
  soc2_cc6_2_status : String
  nist_ia_5_status : String
  overall_status : String
  policy_type : String
deriving DecidableEq, Repr

/-- The checker object state set up by `__init__` (the AWS handles `session`,
`iam_client`, `account_id` start as `None` and are irrelevant to evaluation). -/
structure PasswordPolicyChecker where
  profile_name : Option String
  region : String
  compliance_standards : List (String × PValue)
deriving DecidableEq, Repr

/-- `__init__(self, profile_name=None, region='us-east-1')`: records the identity
and builds the fixed nine-entry baseline `self.compliance_standards`. -/
def PasswordPolicyChecker.init (profile_name : Option String := none)
    (region : String := "us-east-1") : PasswordPolicyChecker where
  profile_name := profile_name
  region := region
  compliance_standards :=
    [ ("minimum_password_length", .int 12),
      ("require_symbols", .bool true),
      ("require_numbers", .bool true),
      ("require_uppercase", .bool true),
      ("require_lowercase", .bool true),
      ("max_password_age", .int 90),
      ("password_reuse_prevention", .int 12),
      ("allow_users_to_change_password", .bool true),
      ("hard_expiry", .bool false) ]

/-- The initial `evaluation` dict literal at the top of `evaluate_policy_compliance`. -/
def initEvaluation : Evaluation where
  compliant_controls := []
  non_compliant_controls := []
  missing_controls := []
  compliance_score := 0
  soc2_cc6_2_status := "UNKNOWN"
  nist_ia_5_status := "UNKNOWN"
  overall_status := "UNKNOWN"
  policy_type := "unknown"

/-- Python `round(q, 2)`: round to two decimal places.  (Python rounds floats
half-to-even; every value this program rounds is at least `0.1` away from a
half-tie, so round-half-up on exact rationals agrees with it.) -/
def round2 (q : ℚ) : ℚ := (round (q * 100) : ℚ) / 100

/-- One iteration of the `for control, required_value in self.compliance_standards.items()`
loop, threading the `evaluation` dict and the `compliant_count` counter. -/
def classifyStep (isC : IsCompliant) (policy : Policy)
    (acc : Evaluation × Nat) (cp : String × PValue) : Evaluation × Nat :=
  let evaluation := acc.1
  let compliant_count := acc.2
  let control := cp.1
  let required_value := cp.2
  match policy control with
  | none =>
      ({ evaluation with
          missing_controls := evaluation.missing_controls ++ [control] },
        compliant_count)
  | some current_value =>
      if isC control current_value required_value then
        ({ evaluation with
            compliant_controls := evaluation.compliant_controls ++ [control] },
          compliant_count + 1)
      else
        ({ evaluation with
            non_compliant_controls := evaluation.non_compliant_controls ++ [control] },
          compliant_count)

/-- `evaluate_policy_compliance(self, policy)`.  The method only reads `self`, so
the embedding returns the report together with the post-call object state. -/
def evaluate_policy_compliance (isC : IsCompliant) (self : PasswordPolicyChecker)
    (policy : Option Policy) : Evaluation × PasswordPolicyChecker :=
  let evaluation := initEvaluation
  match policy with
  | none =>
      ({ evaluation with
          missing_controls := self.compliance_standards.map Prod.fst,
          overall_status := "NON_COMPLIANT" }, self)
  | some p =>
      let total_controls := self.compliance_standards.length
      let r := self.compliance_standards.foldl (classifyStep isC p) (evaluation, 0)
      let evaluation := r.1
      let compliant_count := r.2
      let evaluation := { evaluation with
        compliance_score := round2 ((compliant_count : ℚ) / (total_controls : ℚ) * 100) }
      let evaluation := { evaluation with
        overall_status :=
          if evaluation.compliance_score ≥ 90 then "COMPLIANT" else "NON_COMPLIANT" }
      (evaluation, self)

/-- The report produced for a present (non-`None`) policy. -/
def evalReport (isC : IsCompliant) (p : Policy) (pn : Option String) (r : String) :
    Evaluation :=
  (evaluate_policy_compliance isC (PasswordPolicyChecker.init pn r) (some p)).1

/-- Which of the three report lists the loop body files a control under. -/
inductive Bucket where
  | compliant
  | nonCompliant
  | missing
deriving DecidableEq, Repr

/-- Classification of a single baseline entry, mirroring the loop body's branch. -/
def bucket (isC : IsCompliant) (policy : Policy) (cp : String × PValue) : Bucket :=
  match policy cp.1 with
  | none => .missing
  | some v => if isC cp.1 v cp.2 then .compliant else .nonCompliant

/-- The control names of `l` that the loop files under bucket `b`. -/
def keysOf (isC : IsCompliant) (policy : Policy) (b : Bucket)
    (l : List (String × PValue)) : List String :=
  (l.filter (fun cp => decide (bucket isC policy cp = b))).map Prod.fst

/-- A classifier that accepts every value (used only to build concrete witnesses). -/
def acceptAll : IsCompliant := fun _ _ _ => true

/-- Plain-equality classifier, used only to build concrete witnesses. -/
def eqClassifier : IsCompliant := fun _ current required => decide (current = required)

/-- A concrete policy agreeing with the baseline on every control. -/
def exactPolicy : Policy := fun c =>
  ((PasswordPolicyChecker.init none "us-east-1").compliance_standards).lookup c

/-- A concrete policy deviating from the baseline only on `hard_expiry`. -/
def eightPolicy : Policy := fun c =>
  if c = "hard_expiry" then some (.bool true) else exactPolicy c

/-- A concrete policy missing the `require_numbers` control. -/
def gapPolicy : Policy := fun c =>
  if c = "require_numbers" then none else exactPolicy c

/-- Modelled from the spec: the helper `_is_control_compliant` is not among the
provided source files and the exact numeric comparison direction is flagged as
an open question, but the spec states that boolean-required controls compare by
equality and that a policy matching the baseline exactly is fully compliant.
This predicate records only that consequence: the classifier accepts a current
value equal to the required value. -/
def acceptsExactMatch (isC : IsCompliant) : Prop :=
  ∀ c v, isC c v v = true

/-- Characterisation of the classification loop: folding `classifyStep` over a
list of baseline entries appends, to each report list, exactly the control names
whose `bucket` is the corresponding one, and adds to the counter the number of
compliant entries. -/
theorem foldl_classifyStep (isC : IsCompliant) (p : Policy)
    (l : List (String × PValue)) (ev : Evaluation) (cnt : ℕ) :
    l.foldl (classifyStep isC p) (ev, cnt) =
      ({ ev with
          compliant_controls := ev.compliant_controls ++ keysOf isC p .compliant l,
          non_compliant_controls :=
            ev.non_compliant_controls ++ keysOf isC p .nonCompliant l,
          missing_controls := ev.missing_controls ++ keysOf isC p .missing l },
        cnt + (keysOf isC p .compliant l).length) := by
  induction l generalizing ev cnt with
  | nil => simp [keysOf]
  | cons hd tl ih =>
    obtain ⟨control, required⟩ := hd
    rw [List.foldl_cons]
    rcases hpc : p control with _ | v
    · have hstep : classifyStep isC p (ev, cnt) (control, required) =
          ({ ev with missing_controls := ev.missing_controls ++ [control] }, cnt) := by
        simp [classifyStep, hpc]
      rw [hstep, ih]
      simp [keysOf, bucket, hpc, List.filter_cons]
    · by_cases hic : isC control v required
      · have hstep : classifyStep isC p (ev, cnt) (control, required) =
            ({ ev with compliant_controls := ev.compliant_controls ++ [control] },
              cnt + 1) := by
          simp [classifyStep, hpc, hic]
        rw [hstep, ih]
        simp [keysOf, bucket, hpc, hic, List.filter_cons]
        omega
      · have hstep : classifyStep isC p (ev, cnt) (control, required) =
            ({ ev with
                non_compliant_controls := ev.non_compliant_controls ++ [control] },
              cnt) := by
          simp [classifyStep, hpc, hic]
        rw [hstep, ih]
        simp [keysOf, bucket, hpc, hic, List.filter_cons]

/-- Closed form of the report returned for a present policy. -/
theorem evalReport_eq (isC : IsCompliant) (p : Policy) (pn : Option String)
    (r : String) :
    evalReport isC p pn r =
      { compliant_controls :=
          keysOf isC p .compliant (PasswordPolicyChecker.init pn r).compliance_standards,
        non_compliant_controls :=
          keysOf isC p .nonCompliant (PasswordPolicyChecker.init pn r).compliance_standards,
        missing_controls :=
          keysOf isC p .missing (PasswordPolicyChecker.init pn r).compliance_standards,
        compliance_score :=
          round2 (((keysOf isC p .compliant
            (PasswordPolicyChecker.init pn r).compliance_standards).length : ℚ) / 9 * 100),
        soc2_cc6_2_status := "UNKNOWN",
        nist_ia_5_status := "UNKNOWN",
        overall_status :=
          if round2 (((keysOf isC p .compliant
              (PasswordPolicyChecker.init pn r).compliance_standards).length : ℚ) / 9 * 100) ≥ 90
          then "COMPLIANT" else "NON_COMPLIANT",
        policy_type := "unknown" } := by
  simp only [evalReport, evaluate_policy_compliance]
  rw [foldl_classifyStep isC p _ initEvaluation 0]
  simp [initEvaluation, PasswordPolicyChecker.init]

/-- Membership in a bucket list means some entry with that name is filed there. -/
theorem mem_keysOf {isC : IsCompliant} {p : Policy} {b : Bucket}
    {l : List (String × PValue)} {c : String} :
    c ∈ keysOf isC p b l ↔ ∃ v, (c, v) ∈ l ∧ bucket isC p (c, v) = b := by
  constructor
  · intro h
    obtain ⟨⟨a, v⟩, hmem, rfl⟩ := List.mem_map.mp h
    exact ⟨v, (List.mem_filter.mp hmem).1, of_decide_eq_true (List.mem_filter.mp hmem).2⟩
  · rintro ⟨v, hmem, hb⟩
    exact List.mem_map.mpr ⟨(c, v), List.mem_filter.mpr ⟨hmem, decide_eq_true hb⟩, rfl⟩

/-- Every bucket list only holds names drawn from the entries. -/
theorem keysOf_subset (isC : IsCompliant) (p : Policy) (b : Bucket)
    (l : List (String × PValue)) : keysOf isC p b l ⊆ l.map Prod.fst := by
  intro c hc
  obtain ⟨v, hmem, _⟩ := mem_keysOf.mp hc
  exact List.mem_map.mpr ⟨(c, v), hmem, rfl⟩

/-- The three bucket lists together account for every entry exactly once. -/
theorem keysOf_length_sum (isC : IsCompliant) (p : Policy)
    (l : List (String × PValue)) :
    (keysOf isC p .compliant l).length + (keysOf isC p .nonCompliant l).length +
      (keysOf isC p .missing l).length = l.length := by
  induction l with
  | nil => simp [keysOf]
  | cons hd tl ih =>
    rcases hb : bucket isC p hd with _ | _ | _ <;>
      simp only [keysOf, List.filter_cons, hb] at ih ⊢ <;>
      simp at ih ⊢ <;> omega

/-- In a list whose keys are distinct, a name determines its required value. -/
theorem value_unique_of_nodup_keys {l : List (String × PValue)}
    (h : (l.map Prod.fst).Nodup) {c : String} {v1 v2 : PValue}
    (h1 : (c, v1) ∈ l) (h2 : (c, v2) ∈ l) : v1 = v2 := by
  induction l with
  | nil => cases h1
  | cons hd tl ih =>
    simp only [List.map_cons, List.nodup_cons] at h
    rcases List.mem_cons.mp h1 with h1 | h1 <;> rcases List.mem_cons.mp h2 with h2 | h2
    · exact congrArg Prod.snd (h1.trans h2.symm)
    · rw [← h1] at h
      exact absurd (List.mem_map.mpr ⟨(c, v2), h2, rfl⟩) h.1
    · rw [← h2] at h
      exact absurd (List.mem_map.mpr ⟨(c, v1), h1, rfl⟩) h.1
    · exact ih h.2 h1 h2

/-- Distinct buckets hold disjoint name lists when the keys are distinct. -/
theorem keysOf_disjoint {isC : IsCompliant} {p : Policy}
    {l : List (String × PValue)} (h : (l.map Prod.fst).Nodup) {b1 b2 : Bucket}
    (hne : b1 ≠ b2) : List.Disjoint (keysOf isC p b1 l) (keysOf isC p b2 l) := by
  intro c hc1 hc2
  obtain ⟨v1, hm1, hb1⟩ := mem_keysOf.mp hc1
  obtain ⟨v2, hm2, hb2⟩ := mem_keysOf.mp hc2
  rw [value_unique_of_nodup_keys h hm1 hm2] at hb1
  exact hne (hb1 ▸ hb2 ▸ rfl)

/-- The baseline's control names are pairwise distinct. -/
theorem baseline_keys_nodup (pn : Option String) (r : String) :
    ((PasswordPolicyChecker.init pn r).compliance_standards.map Prod.fst).Nodup := by
  have h : (["minimum_password_length", "require_symbols", "require_numbers",
      "require_uppercase", "require_lowercase", "max_password_age",
      "password_reuse_prevention", "allow_users_to_change_password",
      "hard_expiry"] : List String).Nodup := by decide
  exact h

/-- A bucket list is no longer than the entry list it was filtered from. -/
theorem keysOf_length_le (isC : IsCompliant) (p : Policy) (b : Bucket)
    (l : List (String × PValue)) : (keysOf isC p b l).length ≤ l.length := by
  simpa [keysOf] using
    List.length_filter_le (fun cp => decide (bucket isC p cp = b)) l

/-- If the policy returns exactly the required value for every entry and the
classifier accepts exact matches, every entry is filed compliant. -/
theorem keysOf_compliant_of_exact (isC : IsCompliant) (p : Policy)
    (hA : acceptsExactMatch isC) (l : List (String × PValue))
    (hM : ∀ cp ∈ l, p cp.1 = some cp.2) :
    keysOf isC p .compliant l = l.map Prod.fst := by
  induction l with
  | nil => rfl
  | cons hd tl ih =>
    have hb : bucket isC p hd = .compliant := by
      simp [bucket, hM hd (List.mem_cons_self hd tl), hA hd.1 hd.2]
    have ih' := ih fun cp hcp => hM cp (List.mem_cons_of_mem hd hcp)
    simp only [keysOf, List.filter_cons, hb] at ih' ⊢
    simp only [decide_eq_true_eq, if_pos rfl, List.map_cons, List.map_nil]
    simp [ih']

/-- The ten possible scores all lie between 0 and 100, are multiples of 1/100,
and the compliance threshold is met only by the full score. -/
theorem score_cases (n : ℕ) (h : n ≤ 9) :
    0 ≤ round2 ((n : ℚ) / 9 * 100) ∧ round2 ((n : ℚ) / 9 * 100) ≤ 100 ∧
      (∃ k : ℤ, round2 ((n : ℚ) / 9 * 100) = (k : ℚ) / 100) := by
  refine ⟨?_, ?_, round (((n : ℚ) / 9 * 100) * 100), rfl⟩ <;>
    interval_cases n <;> norm_num [round2, round_eq]

/-- C1: for every present policy the evaluator has 9 baseline controls, sets
`compliance_score` to `round(compliant_count / total_controls * 100, 2)` where
`compliant_count` is the number of controls classified compliant, and the score
lies between 0 and 100 and is an exact multiple of `1/100`. -/
theorem evaluate_score_formula (isC : IsCompliant) (p : Policy)
    (pn : Option String) (r : String) :
    (PasswordPolicyChecker.init pn r).compliance_standards.length = 9 ∧
    (evalReport isC p pn r).compliance_score =
      round2 (((evalReport isC p pn r).compliant_controls.length : ℚ) / 9 * 100) ∧
    0 ≤ (evalReport isC p pn r).compliance_score ∧
    (evalReport isC p pn r).compliance_score ≤ 100 ∧
    ∃ k : ℤ, (evalReport isC p pn r).compliance_score = (k : ℚ) / 100 := by
  rw [evalReport_eq]
  have hlen : (keysOf isC p .compliant
      (PasswordPolicyChecker.init pn r).compliance_standards).length ≤ 9 := by
    calc (keysOf isC p .compliant
          (PasswordPolicyChecker.init pn r).compliance_standards).length
        ≤ (PasswordPolicyChecker.init pn r).compliance_standards.length := by
          simpa [keysOf] using
            List.length_filter_le
              (fun cp => decide (bucket isC p cp = Bucket.compliant))
              (PasswordPolicyChecker.init pn r).compliance_standards
      _ = 9 := rfl
  obtain ⟨h0, h100, hk⟩ := score_cases _ hlen
  exact ⟨rfl, rfl, h0, h100, hk⟩

/-- C2: for every present policy, `overall_status` is `COMPLIANT` exactly when the
stored `compliance_score` is at least 90; in particular a score of exactly 90
would be reported `COMPLIANT`. -/
theorem evaluate_status_iff_threshold (isC : IsCompliant) (p : Policy)
    (pn : Option String) (r : String) :
    ((evalReport isC p pn r).overall_status = "COMPLIANT" ↔
      90 ≤ (evalReport isC p pn r).compliance_score) ∧
    ((evalReport isC p pn r).compliance_score = 90 →
      (evalReport isC p pn r).overall_status = "COMPLIANT") := by
  rw [evalReport_eq]
  dsimp only
  by_cases h : round2 (((keysOf isC p .compliant
      (PasswordPolicyChecker.init pn r).compliance_standards).length : ℚ) / 9 * 100) ≥ 90
  · rw [if_pos h]
    exact ⟨⟨fun _ => h, fun _ => rfl⟩, fun _ => rfl⟩
  · rw [if_neg h]
    exact ⟨⟨fun hc => absurd hc (by decide), fun hge => absurd hge h⟩,
      fun heq => absurd (le_of_eq heq.symm) h⟩

/-- C3: called with `policy = None`, the evaluator returns (totally, with no
exception modelled) a report listing all 9 baseline control names as missing,
with `compliance_score = 0` and `overall_status = NON_COMPLIANT`. -/
theorem evaluate_none_report (isC : IsCompliant) (pn : Option String) (r : String) :
    (evaluate_policy_compliance isC (PasswordPolicyChecker.init pn r) none).1.missing_controls
        = ["minimum_password_length", "require_symbols", "require_numbers",
           "require_uppercase", "require_lowercase", "max_password_age",
           "password_reuse_prevention", "allow_users_to_change_password",
           "hard_expiry"] ∧
    (evaluate_policy_compliance isC (PasswordPolicyChecker.init pn r)
        none).1.missing_controls.length = 9 ∧
    (evaluate_policy_compliance isC (PasswordPolicyChecker.init pn r)
        none).1.compliance_score = 0 ∧
    (evaluate_policy_compliance isC (PasswordPolicyChecker.init pn r)
        none).1.overall_status = "NON_COMPLIANT" :=
  ⟨rfl, rfl, rfl, rfl⟩

/-- C9: the early-return branch for `policy = None` leaves `soc2_cc6_2_status`
and `nist_ia_5_status` at `UNKNOWN`, `policy_type` at `unknown`, and the
compliant and non-compliant lists empty. -/
theorem evaluate_none_untouched_fields (isC : IsCompliant) (pn : Option String)
    (r : String) :
    (evaluate_policy_compliance isC (PasswordPolicyChecker.init pn r)
        none).1.soc2_cc6_2_status = "UNKNOWN" ∧
    (evaluate_policy_compliance isC (PasswordPolicyChecker.init pn r)
        none).1.nist_ia_5_status = "UNKNOWN" ∧
    (evaluate_policy_compliance isC (PasswordPolicyChecker.init pn r)
        none).1.policy_type = "unknown" ∧
    (evaluate_policy_compliance isC (PasswordPolicyChecker.init pn r)
        none).1.compliant_controls = [] ∧
    (evaluate_policy_compliance isC (PasswordPolicyChecker.init pn r)
        none).1.non_compliant_controls = [] :=
  ⟨rfl, rfl, rfl, rfl, rfl⟩

/-- C4: for every present policy, each baseline control lands in exactly one of
the three report lists, and a control whose value is absent (or `None`) lands in
`missing_controls` and in neither other list. -/
theorem evaluate_classifies_each_control (isC : IsCompliant) (p : Policy)
    (pn : Option String) (r : String) (c : String)
    (h : c ∈ (PasswordPolicyChecker.init pn r).compliance_standards.map Prod.fst) :
    ((c ∈ (evalReport isC p pn r).compliant_controls ∧
        c ∉ (evalReport isC p pn r).non_compliant_controls ∧
        c ∉ (evalReport isC p pn r).missing_controls) ∨
      (c ∉ (evalReport isC p pn r).compliant_controls ∧
        c ∈ (evalReport isC p pn r).non_compliant_controls ∧
        c ∉ (evalReport isC p pn r).missing_controls) ∨
      (c ∉ (evalReport isC p pn r).compliant_controls ∧
        c ∉ (evalReport isC p pn r).non_compliant_controls ∧
        c ∈ (evalReport isC p pn r).missing_controls)) ∧
    (p c = none →
      c ∈ (evalReport isC p pn r).missing_controls ∧
      c ∉ (evalReport isC p pn r).compliant_controls ∧
      c ∉ (evalReport isC p pn r).non_compliant_controls) := by
  have hnd := baseline_keys_nodup pn r
  obtain ⟨cp, hmem, rfl⟩ := List.mem_map.mp h
  rw [evalReport_eq]
  dsimp only
  have hin : ∀ b : Bucket, bucket isC p cp = b →
      cp.1 ∈ keysOf isC p b (PasswordPolicyChecker.init pn r).compliance_standards :=
    fun b hb => mem_keysOf.mpr ⟨cp.2, hmem, hb⟩
  have hout : ∀ b1 b2 : Bucket, b1 ≠ b2 →
      cp.1 ∈ keysOf isC p b1 (PasswordPolicyChecker.init pn r).compliance_standards →
      cp.1 ∉ keysOf isC p b2 (PasswordPolicyChecker.init pn r).compliance_standards :=
    fun _ _ hne h1 h2 => keysOf_disjoint hnd hne h1 h2
  constructor
  · rcases hb : bucket isC p cp with _ | _ | _
    · exact Or.inl ⟨hin _ hb, hout _ _ (by decide) (hin _ hb),
        hout _ _ (by decide) (hin _ hb)⟩
    · exact Or.inr (Or.inl ⟨hout _ _ (by decide) (hin _ hb), hin _ hb,
        hout _ _ (by decide) (hin _ hb)⟩)
    · exact Or.inr (Or.inr ⟨hout _ _ (by decide) (hin _ hb),
        hout _ _ (by decide) (hin _ hb), hin _ hb⟩)
  · intro hpc
    have hb : bucket isC p cp = .missing := by simp [bucket, hpc]
    exact ⟨hin _ hb, hout _ _ (by decide) (hin _ hb),
      hout _ _ (by decide) (hin _ hb)⟩

/-- Witness for C4 at a concrete gap policy: the control whose value is absent
is filed as missing and nowhere else. -/
theorem evaluate_classifies_each_control_witness :
    "require_numbers" ∈
      ((PasswordPolicyChecker.init none "us-east-1").compliance_standards.map
        Prod.fst) ∧
    gapPolicy "require_numbers" = none ∧
    ("require_numbers" ∈
        (evalReport eqClassifier gapPolicy none "us-east-1").missing_controls ∧
      "require_numbers" ∉
        (evalReport eqClassifier gapPolicy none "us-east-1").compliant_controls ∧
      "require_numbers" ∉
        (evalReport eqClassifier gapPolicy none "us-east-1").non_compliant_controls) :=
  ⟨by decide, by decide,
    (evaluate_classifies_each_control eqClassifier gapPolicy none "us-east-1"
      "require_numbers" (by decide)).2 (by decide)⟩

/-- C5: a policy agreeing with the baseline on every control (with a classifier
accepting exact matches, the part of `_is_control_compliant` stated by the spec)
yields all 9 controls compliant, a score of 100, and `COMPLIANT` status. -/
theorem evaluate_exact_match_fully_compliant (isC : IsCompliant) (p : Policy)
    (pn : Option String) (r : String) (hA : acceptsExactMatch isC)
    (hM : ∀ cp ∈ (PasswordPolicyChecker.init pn r).compliance_standards,
      p cp.1 = some cp.2) :
    (evalReport isC p pn r).compliant_controls =
      (PasswordPolicyChecker.init pn r).compliance_standards.map Prod.fst ∧
    (evalReport isC p pn r).compliant_controls.length = 9 ∧
    (evalReport isC p pn r).compliance_score = 100 ∧
    (evalReport isC p pn r).overall_status = "COMPLIANT" := by
  have hk := keysOf_compliant_of_exact isC p hA
    (PasswordPolicyChecker.init pn r).compliance_standards hM
  rw [evalReport_eq]
  dsimp only
  rw [hk]
  have hlen : ((PasswordPolicyChecker.init pn r).compliance_standards.map
      Prod.fst).length = 9 := rfl
  rw [hlen]
  refine ⟨rfl, rfl, by norm_num [round2, round_eq], ?_⟩
  rw [if_pos (by norm_num [round2, round_eq])]

/-- Witness for C5 at a concrete exactly-matching policy. -/
theorem evaluate_exact_match_fully_compliant_witness :
    acceptsExactMatch acceptAll ∧
    (∀ cp ∈ (PasswordPolicyChecker.init none "us-east-1").compliance_standards,
      exactPolicy cp.1 = some cp.2) ∧
    ((evalReport acceptAll exactPolicy none "us-east-1").compliance_score = 100 ∧
      (evalReport acceptAll exactPolicy none "us-east-1").overall_status =
        "COMPLIANT") :=
  ⟨fun _ _ => rfl, by decide,
    (evaluate_exact_match_fully_compliant acceptAll exactPolicy none "us-east-1"
      (fun _ _ => rfl) (by decide)).2.2⟩

/-- C6: whenever exactly 8 of the 9 controls are classified compliant, the score
is `round(8/9*100, 2) = 88.89` and the overall status is `NON_COMPLIANT`. -/
theorem evaluate_eight_of_nine_score (isC : IsCompliant) (p : Policy)
    (pn : Option String) (r : String)
    (h : (evalReport isC p pn r).compliant_controls.length = 8) :
    (evalReport isC p pn r).compliance_score = 88.89 ∧
    (evalReport isC p pn r).overall_status = "NON_COMPLIANT" := by
  rw [evalReport_eq] at h
  dsimp only at h
  rw [evalReport_eq]
  dsimp only
  rw [h]
  refine ⟨by norm_num [round2, round_eq], ?_⟩
  rw [if_neg (by norm_num [round2, round_eq])]

/-- Witness for C6 at a concrete policy deviating only on `hard_expiry`. -/
theorem evaluate_eight_of_nine_score_witness :
    (evalReport eqClassifier eightPolicy none "us-east-1").compliant_controls.length
        = 8 ∧
    ((evalReport eqClassifier eightPolicy none "us-east-1").compliance_score = 88.89 ∧
      (evalReport eqClassifier eightPolicy none "us-east-1").overall_status =
        "NON_COMPLIANT") :=
  ⟨by decide,
    evaluate_eight_of_nine_score eqClassifier eightPolicy none "us-east-1" (by decide)⟩

/-- C7: the evaluator is a total function — for every input, absent or however
malformed, it returns a well-formed report: each list only holds baseline
control names, the overall status is one of the two verdict strings, and the
score lies between 0 and 100. -/
theorem evaluate_total_wellformed (isC : IsCompliant) (pn : Option String)
    (r : String) (policy : Option Policy) :
    (evaluate_policy_compliance isC (PasswordPolicyChecker.init pn r)
        policy).1.compliant_controls ⊆
      (PasswordPolicyChecker.init pn r).compliance_standards.map Prod.fst ∧
    (evaluate_policy_compliance isC (PasswordPolicyChecker.init pn r)
        policy).1.non_compliant_controls ⊆
      (PasswordPolicyChecker.init pn r).compliance_standards.map Prod.fst ∧
    (evaluate_policy_compliance isC (PasswordPolicyChecker.init pn r)
        policy).1.missing_controls ⊆
      (PasswordPolicyChecker.init pn r).compliance_standards.map Prod.fst ∧
    ((evaluate_policy_compliance isC (PasswordPolicyChecker.init pn r)
        policy).1.overall_status = "COMPLIANT" ∨
      (evaluate_policy_compliance isC (PasswordPolicyChecker.init pn r)
        policy).1.overall_status = "NON_COMPLIANT") ∧
    0 ≤ (evaluate_policy_compliance isC (PasswordPolicyChecker.init pn r)
        policy).1.compliance_score ∧
    (evaluate_policy_compliance isC (PasswordPolicyChecker.init pn r)
        policy).1.compliance_score ≤ 100 := by
  cases policy with
  | none =>
    exact ⟨List.nil_subset _, List.nil_subset _, fun c hc => hc, Or.inr rfl,
      le_refl 0, (by norm_num : (0 : ℚ) ≤ 100)⟩
  | some p =>
    have hrep : (evaluate_policy_compliance isC (PasswordPolicyChecker.init pn r)
        (some p)).1 = evalReport isC p pn r := rfl
    rw [hrep, evalReport_eq]
    dsimp only
    obtain ⟨h0, h100, -⟩ := score_cases
      (keysOf isC p .compliant
        (PasswordPolicyChecker.init pn r).compliance_standards).length
      (keysOf_length_le isC p .compliant
        (PasswordPolicyChecker.init pn r).compliance_standards)
    refine ⟨keysOf_subset isC p _ _, keysOf_subset isC p _ _,
      keysOf_subset isC p _ _, ?_, h0, h100⟩
    by_cases h : round2 (((keysOf isC p .compliant
        (PasswordPolicyChecker.init pn r).compliance_standards).length : ℚ) /
          9 * 100) ≥ 90
    · exact Or.inl (if_pos h)
    · exact Or.inr (if_neg h)

/-- C8: the baseline built by `__init__` is a fixed mapping — 9 entries with
distinct names, each required value a boolean or an integer — and a call to the
evaluator leaves the checker object, hence the baseline, unchanged. -/
theorem baseline_fixed_and_preserved (isC : IsCompliant) (pn : Option String)
    (r : String) (policy : Option Policy) :
    (PasswordPolicyChecker.init pn r).compliance_standards.length = 9 ∧
    ((PasswordPolicyChecker.init pn r).compliance_standards.map Prod.fst).Nodup ∧
    (∀ cp ∈ (PasswordPolicyChecker.init pn r).compliance_standards,
      (∃ b, cp.2 = PValue.bool b) ∨ (∃ n, cp.2 = PValue.int n)) ∧
    (evaluate_policy_compliance isC (PasswordPolicyChecker.init pn r) policy).2 =
      PasswordPolicyChecker.init pn r := by
  refine ⟨rfl, baseline_keys_nodup pn r, ?_, ?_⟩
  · have hstd : (PasswordPolicyChecker.init pn r).compliance_standards =
        [ ("minimum_password_length", .int 12),
          ("require_symbols", .bool true),
          ("require_numbers", .bool true),
          ("require_uppercase", .bool true),
          ("require_lowercase", .bool true),
          ("max_password_age", .int 90),
          ("password_reuse_prevention", .int 12),
          ("allow_users_to_change_password", .bool true),
          ("hard_expiry", .bool false) ] := rfl
    intro cp hcp
    rw [hstd] at hcp
    fin_cases hcp <;>
      first
        | exact Or.inl ⟨_, rfl⟩
        | exact Or.inr ⟨_, rfl⟩
  · cases policy <;> rfl

/-- C10: for every present policy the three report lists partition the 9
baseline controls — their lengths sum to 9 and they are pairwise disjoint — and
the count the score is computed from equals the length of `compliant_controls`. -/
theorem evaluate_partition_invariant (isC : IsCompliant) (p : Policy)
    (pn : Option String) (r : String) :
    (evalReport isC p pn r).compliant_controls.length +
      (evalReport isC p pn r).non_compliant_controls.length +
      (evalReport isC p pn r).missing_controls.length = 9 ∧
    List.Disjoint (evalReport isC p pn r).compliant_controls
      (evalReport isC p pn r).non_compliant_controls ∧
    List.Disjoint (evalReport isC p pn r).compliant_controls
      (evalReport isC p pn r).missing_controls ∧
    List.Disjoint (evalReport isC p pn r).non_compliant_controls
      (evalReport isC p pn r).missing_controls ∧
    (evalReport isC p pn r).compliance_score =
      round2 (((evalReport isC p pn r).compliant_controls.length : ℚ) / 9 * 100) := by
  rw [evalReport_eq]
  dsimp only
  have hnd := baseline_keys_nodup pn r
  exact ⟨keysOf_length_sum isC p (PasswordPolicyChecker.init pn r).compliance_standards,
    keysOf_disjoint hnd (by decide), keysOf_disjoint hnd (by decide),
    keysOf_disjoint hnd (by decide), rfl⟩
